import Mathlib

/-! Verification of the headless-cmp-client consent demo.

The working code of the repository is the single-screen demo
src/examples/react-native/App.js (an earlier variant of the same screen is
src/unnamed/part_003).  The definitions below are a shallow embedding of
its handlers: network interactions are passed in as explicit outcome
values, React state updates become explicit state passing, and a JS throw
becomes the error branch of an Except value.  The design documents of the
repository also describe a Consent Submission Pipeline with an Offline
Queue and Retry Scheduler that no shipped file implements; the section
marked as modelled from the spec embeds those components from the spec
text alone. -/

namespace HeadlessCmp

/-- JS truthiness of an optional string field: an absent field and the
empty string are falsy, every other string is truthy. -/
def truthy : Option String → Bool
  | some s => s != ""
  | none => false

/-- The value of a JS chain a || b || ... || dflt over optional string
fields: the first truthy field, else the final default. -/
def firstTruthy (dflt : String) : List (Option String) → String
  | [] => dflt
  | o :: rest =>
    match o with
    | some s => if s == "" then firstTruthy dflt rest else s
    | none => firstTruthy dflt rest

/-- A JS a || b over two optional string fields. -/
def jsOr (a b : Option String) : Option String :=
  if truthy a then a else b

/-- How a JS template literal renders a possibly-undefined string. -/
def jsShow : Option String → String
  | some s => s
  | none => "undefined"

/-- The response.ok test of the fetch API: status 200 to 299. -/
def isOkStatus (status : Nat) : Bool :=
  decide (200 ≤ status ∧ status < 300)

/-- A vendor record as held in the apiVendors map of App.js: the
transformed API records carry id, name, description, image (lines
326-331); the hardcoded VENDORS fallback entries have only name and
description, so id and image are absent there. -/
structure Vendor where
  id : Option String
  name : Option String
  description : String
  image : Option String
deriving DecidableEq

/-- The hardcoded VENDORS fallback map of App.js (lines 47-51). -/
def VENDORS : List (String × Vendor) :=
  [("google_analytics",
    ⟨none, some "Google Analytics", "Usage statistics and analytics", none⟩),
   ("facebook_pixel",
    ⟨none, some "Facebook Pixel", "Ad targeting and conversion tracking", none⟩),
   ("mixpanel",
    ⟨none, some "Mixpanel", "Product analytics and user behavior", none⟩)]

/-- The ENVIRONMENTS table of App.js (lines 21-34), reduced to the url per
environment key. -/
def ENVIRONMENTS : List (String × String) :=
  [("local-dev", "http://localhost:3000/mobile"),
   ("staging", "https://staging-api.axeptio.tech/mobile"),
   ("production", "https://headless-api.axeptio.tech/mobile")]

/-- The persisted key-value store exactly as App.js uses it: STORAGE_KEYS
(lines 41-44) lists two keys, the project id and the environment.  No
token key exists in the store. -/
structure Storage where
  projectId : Option String
  environment : Option String
deriving DecidableEq

/-- The React state of App.js that the embedded handlers read and write
(lines 54-71; the modal-only fields tempProjectId, tempEnvironment and
failedImages play no part in the claims and are omitted). -/
structure AppState where
  loading : Bool
  modalVisible : Bool
  vendorsLoading : Bool
  configId : Option String
  currentUserToken : Option String
  lastConsentToken : Option String
  lastConsentId : Option String
  consentStatus : String
  apiVendors : List (String × Vendor)
  vendors : List (String × Bool)
  projectId : String
  environment : String
deriving DecidableEq

/-- The useState initial values of App.js (lines 54-71). -/
def initialAppState : AppState :=
  { loading := false
    modalVisible := false
    vendorsLoading := true
    configId := none
    currentUserToken := none
    lastConsentToken := none
    lastConsentId := none
    consentStatus := "Not Set"
    apiVendors := VENDORS
    vendors := []
    projectId := "67fcdb2b52ab9a99a5865f4d"
    environment := "staging" }

/-- App.js loadSettings (lines 78-96): read the two persisted keys and
apply each only when truthy (and, for the environment, only when it is a
known ENVIRONMENTS key).  Nothing else of the state is touched. -/
def loadSettings (store : Storage) (st : AppState) : AppState :=
  let st1 :=
    match store.projectId with
    | some p => if p == "" then st else { st with projectId := p }
    | none => st
  match store.environment with
  | some e =>
    if e == "" then st1
    else if (ENVIRONMENTS.lookup e).isSome then { st1 with environment := e }
    else st1
  | none => st1

/-- Outcome of the configuration GET of App.js fetchConfiguration: an HTTP
response carrying the optional defaultConfigId field of the payload, or a
thrown network error. -/
inductive ConfigOutcome
  | resp (status : Nat) (defaultConfigId : Option String)
  | netError (msg : String)
deriving DecidableEq

/-- The pure result of App.js fetchConfiguration (lines 278-301): the
returned defaultConfigId on an ok response whose payload has a truthy
defaultConfigId, else null (a thrown error is caught and logged). -/
def fetchConfigResult : ConfigOutcome → Option String
  | .resp status dci =>
    if isOkStatus status then (if truthy dci then dci else none) else none
  | .netError _ => none

/-- App.js fetchConfiguration with its setConfigId side effect (line 293):
on success the fetched id is stored in state, otherwise the state is left
alone. -/
def fetchConfiguration (st : AppState) (o : ConfigOutcome) :
    Option String × AppState :=
  match fetchConfigResult o with
  | some c => (some c, { st with configId := some c })
  | none => (none, st)

/-- The ensure-configId step at the top of App.js submitConsent (lines
169-178, also checkConsentStatus lines 469-477): use the cached
state.configId when present, otherwise call fetchConfiguration.  The Bool
records whether the remote call was made.  A null result is the failure
the spec names ConfigUnavailable: the handler alerts and returns. -/
def ensureConfigId (st : AppState) (o : ConfigOutcome) :
    Option String × AppState × Bool :=
  match st.configId with
  | some c => (some c, st, false)
  | none =>
    match fetchConfiguration st o with
    | (r, st2) => (r, st2, true)

/-- An exception value thrown inside the App.js handlers. -/
inductive JsError
  | tokenNotFound
  | apiError (status : Nat) (body : String)
  | network (msg : String)
deriving DecidableEq

/-- Outcome of the token GET of App.js fetchToken: an HTTP response with
the optional token field of its payload and the raw body text, or a
thrown network error. -/
inductive TokenOutcome
  | resp (status : Nat) (token : Option String) (bodyText : String)
  | netError (msg : String)
deriving DecidableEq

/-- App.js fetchToken (lines 366-395): always issues the GET to /token; on
an ok response with a truthy token field the token is returned, in every
other case an error is thrown (the catch block logs and rethrows, so each
failure propagates to the caller). -/
def fetchToken : TokenOutcome → Except JsError String
  | .resp status tok body =>
    if isOkStatus status then
      match tok with
      | some t => if t == "" then .error .tokenNotFound else .ok t
      | none => .error .tokenNotFound
    else .error (.apiError status body)
  | .netError m => .error (.network m)

/-- The ensure-token step of App.js submitConsent (lines 180-192): reuse
the in-memory currentUserToken when present, otherwise call fetchToken and
store the result with setCurrentUserToken.  The Bool records whether the
remote call was made; an error value is the throw that the surrounding
try/catch of submitConsent turns into an early return. -/
def ensureUserToken (st : AppState) (tko : TokenOutcome) :
    Except JsError (String × AppState) × Bool :=
  match st.currentUserToken with
  | some t => (.ok (t, st), false)
  | none =>
    match fetchToken tko with
    | .ok t => (.ok (t, { st with currentUserToken := some t }), true)
    | .error e => (.error e, true)

/-- The parsed body of a consent POST response: the optional id fields the
code probes in App.js lines 250-255 (id, then the underscore-prefixed id,
consentId, uuid, insertedId).  A body that does not parse as JSON becomes
a message-only object, so all five fields are absent. -/
structure PostBody where
  id : Option String
  underscoreId : Option String
  consentId : Option String
  uuid : Option String
  insertedId : Option String
deriving DecidableEq

/-- A POST response body with none of the id fields set. -/
def PostBody.empty : PostBody := ⟨none, none, none, none, none⟩

/-- Outcome of the consent POST of App.js submitConsent: an HTTP response
with its parsed body, or a thrown network error. -/
inductive PostOutcome
  | resp (status : Nat) (body : PostBody)
  | netError (msg : String)
deriving DecidableEq

/-- The fetch plus response.text step of the POST, as a throwing
operation: a network failure is a thrown error, to be caught by the
try/catch of App.js lines 226-270. -/
def doPost : PostOutcome → Except JsError (Nat × PostBody)
  | .resp status body => .ok (status, body)
  | .netError m => .error (.network m)

/-- The consent-id extraction of App.js lines 250-255: the first truthy
field among parsedData.id, the underscore id, consentId, uuid and
insertedId, else the synthesized marker saved. -/
def extractConsentId (b : PostBody) : String :=
  firstTruthy "saved" [b.id, b.underscoreId, b.consentId, b.uuid, b.insertedId]

/-- Whether the POST response body carries any truthy id field. -/
def hasAnyId (b : PostBody) : Bool :=
  [b.id, b.underscoreId, b.consentId, b.uuid, b.insertedId].any truthy

/-- Whether the string s is the value of one of the id fields of b. -/
def bodyCarries (b : PostBody) (s : String) : Prop :=
  some s ∈ [b.id, b.underscoreId, b.consentId, b.uuid, b.insertedId]

/-- The value a run of App.js submitConsent reports back to its caller via
alerts and state updates: each branch of the handler ends in exactly one
of these. -/
inductive SubmitResult
  | configError
  | tokenError (e : JsError)
  | success (status : Nat) (consentId : String)
  | apiError (status : Nat)
  | caught (e : JsError)
deriving DecidableEq

/-- The response classification of App.js lines 248-267: ok or 201 means
success carrying the extracted consent id, anything else is reported as an
API error with its status. -/
def classifyPost (status : Nat) (body : PostBody) : SubmitResult :=
  if isOkStatus status || status == 201 then
    .success status (extractConsentId body)
  else .apiError status

/-- The per-vendor config block of the consent payload (App.js 205-209). -/
structure PrefConfig where
  id : String
  language : String
  identifier : String
deriving DecidableEq

/-- The googleConsentMode block of the consent payload (App.js 212-218). -/
structure GoogleConsentMode where
  version : Nat
  ad_storage : String
  ad_user_data : String
  analytics_storage : String
  ad_personalization : String
deriving DecidableEq

/-- The consent wire payload of App.js lines 202-220 (the nested
preferences object is flattened into the config block and the vendor
map). -/
structure ConsentPayload where
  accept : Bool
  prefConfig : PrefConfig
  prefVendors : List (String × Bool)
  googleConsentMode : GoogleConsentMode
  token : String
deriving DecidableEq

/-- The vendor-preferences object built in App.js lines 194-200: one entry
per apiVendors key, keyed by the template of id and name, valued
isAcceptAll || vendors[vendorKey] || false. -/
def buildVendorPreferences (isAcceptAll : Bool)
    (apiVendors : List (String × Vendor))
    (vendors : List (String × Bool)) : List (String × Bool) :=
  apiVendors.map (fun kv =>
    (jsShow kv.2.id ++ " (" ++ jsShow kv.2.name ++ ")",
     isAcceptAll || ((vendors.lookup kv.1).getD false)))

/-- The consent object of App.js lines 202-220: the top-level accept field
is the literal true, whatever the per-vendor preferences say. -/
def buildConsent (isAcceptAll : Bool) (apiVendors : List (String × Vendor))
    (vendors : List (String × Bool)) (currentConfigId tokenToUse : String) :
    ConsentPayload :=
  { accept := true
    prefConfig := ⟨currentConfigId, "en", currentConfigId⟩
    prefVendors := buildVendorPreferences isAcceptAll apiVendors vendors
    googleConsentMode := ⟨2, "denied", "denied", "denied", "denied"⟩
    token := tokenToUse }

/-- One run of submitConsent: the reported result (the error branch stands
for an exception escaping the handler), the final state, which of the
three network calls were made, and the wire payload when the POST was
reached. -/
structure SubmitTrace where
  outcome : Except JsError SubmitResult
  state : AppState
  configFetched : Bool
  tokenFetched : Bool
  transmitted : Bool
  sent : Option ConsentPayload

/-- App.js submitConsent (lines 166-275), one full run of the handler.
The three oracles answer, in order, fetchConfiguration if it is called,
fetchToken if it is called, and the consent POST if it is reached.  The
embedding mirrors the handler statement by statement: setLoading(true);
the ensure-configId step with its early return; the ensure-token
try/catch with its early return; the payload build and
setLastConsentToken; the POST inside try/catch with ok/201
classification, state updates and the finally block. -/
def submitConsent (st0 : AppState) (isAcceptAll : Bool) (co : ConfigOutcome)
    (tko : TokenOutcome) (po : PostOutcome) : SubmitTrace :=
  let st := { st0 with loading := true }
  match ensureConfigId st co with
  | (none, st1, cf) =>
    ⟨.ok .configError, { st1 with loading := false }, cf, false, false, none⟩
  | (some currentConfigId, st1, cf) =>
    match ensureUserToken st1 tko with
    | (.error e, tf) =>
      ⟨.ok (.tokenError e), { st1 with loading := false }, cf, tf, false, none⟩
    | (.ok (tokenToUse, st2), tf) =>
      let consent :=
        buildConsent isAcceptAll st2.apiVendors st2.vendors currentConfigId tokenToUse
      let st3 := { st2 with lastConsentToken := some tokenToUse }
      match doPost po with
      | .error e =>
        ⟨.ok (.caught e),
         { st3 with loading := false, modalVisible := false },
         cf, tf, true, some consent⟩
      | .ok (status, body) =>
        if isOkStatus status || status == 201 then
          let consentId := extractConsentId body
          ⟨.ok (.success status consentId),
           { st3 with
              consentStatus :=
                if isAcceptAll then "All Accepted" else "Custom Preferences",
              lastConsentId := some consentId,
              loading := false, modalVisible := false },
           cf, tf, true, some consent⟩
        else
          ⟨.ok (.apiError status),
           { st3 with loading := false, modalVisible := false },
           cf, tf, true, some consent⟩

/-- Whether the configuration id is obtainable for this run: either cached
in state or delivered by the remote call (App.js lines 169-178). -/
def configAvailable (st : AppState) (o : ConfigOutcome) : Bool :=
  st.configId.isSome || (fetchConfigResult o).isSome

/-- Whether the identity token is obtainable for this run: either cached
in state or delivered by the remote call (App.js lines 180-192). -/
def tokenAvailable (st : AppState) (tko : TokenOutcome) : Bool :=
  st.currentUserToken.isSome || (fetchToken tko).toOption.isSome

/-- A vendor record of the vendors-API payload as App.js reads it (lines
324-334): id plus the optional title, name, description and image
fields. -/
structure VendorJson where
  id : String
  title : Option String
  name : Option String
  description : Option String
  image : Option String
deriving DecidableEq

/-- Outcome of the vendors GET of App.js fetchVendors: an HTTP response
whose payload either carries a vendors array (some list) or fails the
vendorData and Array.isArray checks of line 319 (none), or a thrown
network error. -/
inductive VendorsOutcome
  | resp (status : Nat) (payload : Option (List VendorJson))
  | netError (msg : String)
deriving DecidableEq

/-- The map key built for one API vendor (App.js line 325): the template
of id and of title || name. -/
def vendorKey (v : VendorJson) : String :=
  v.id ++ " (" ++ jsShow (jsOr v.title v.name) ++ ")"

/-- The simplified vendor record built for one API vendor (App.js lines
326-331). -/
def transformVendor (v : VendorJson) : String × Vendor :=
  (vendorKey v,
   ⟨some v.id, jsOr v.title v.name,
    firstTruthy "No description available" [v.description], v.image⟩)

/-- The all-false preference map over the hardcoded VENDORS keys that the
failure paths of fetchVendors install (App.js lines 345-349 and
354-358). -/
def hardcodedPreferences : List (String × Bool) :=
  VENDORS.map (fun kv => (kv.1, false))

/-- App.js fetchVendors (lines 304-363).  On an ok response carrying a
vendors array: build the transformed map, set every preference to false
(line 332), store both and return the map.  On a non-2xx response or a
thrown error: keep apiVendors as it is and reset the preferences to the
hardcoded VENDORS keys, all false, returning null.  On an ok response
without a vendors array nothing is stored and null is returned.  The JS
maps are objects keyed by vendorKey; the embedding keeps them as
association lists in insertion order. -/
def fetchVendors (st : AppState) :
    VendorsOutcome → Option (List (String × Vendor)) × AppState
  | .resp status payload =>
    if isOkStatus status then
      match payload with
      | some vs =>
        (some (vs.map transformVendor),
         { st with
            apiVendors := vs.map transformVendor,
            vendors := vs.map (fun v => (vendorKey v, false)),
            vendorsLoading := false })
      | none => (none, { st with vendorsLoading := false })
    else
      (none,
       { st with vendors := hardcodedPreferences, vendorsLoading := false })
  | .netError _ =>
    (none,
     { st with vendors := hardcodedPreferences, vendorsLoading := false })

/-- The per-vendor switches of the earlier demo variant
src/unnamed/part_003 (lines 880-884): a fixed trio. -/
structure V1Vendors where
  google_analytics : Bool
  facebook_pixel : Bool
  mixpanel : Bool
deriving DecidableEq

/-- The consent object of the earlier variant (part_003 lines 935-945):
fixed vendor trio, token derived from Date.now, accept hardcoded true. -/
structure V1Consent where
  accept : Bool
  google_analytics : Bool
  facebook_pixel : Bool
  mixpanel : Bool
  token : String
deriving DecidableEq

/-- The consent build of src/unnamed/part_003 submitConsent (lines
935-945): each vendor flag is isAcceptAll || its switch, and the
top-level accept field is the literal true. -/
def buildConsentV1 (isAcceptAll : Bool) (vendors : V1Vendors) (nowMs : Nat) :
    V1Consent :=
  ⟨true,
   isAcceptAll || vendors.google_analytics,
   isAcceptAll || vendors.facebook_pixel,
   isAcceptAll || vendors.mixpanel,
   "mobile_user_" ++ toString nowMs⟩

/-! Components modelled from the spec.

No file of the repository implements the Consent Submission Pipeline or
the Offline Queue and Retry Scheduler: the design document names them as
the core to build and states that retry and backoff logic is only
described in prose.  The definitions below are therefore modelled from
the spec text (sections 4.3, 4.4 and 8), not translated from shipped
code. -/

/-- Modelled from the spec: the status field of a ConsentDecision in the
data model of section 3 (missing from the repository code). -/
inductive DStatus
  | pending
  | submitting
  | confirmed
  | failed
deriving DecidableEq

/-- Modelled from the spec: a ConsentDecision reduced to the fields the
serialization invariant and the retry bookkeeping use (section 3; missing
from the repository code). -/
structure Decision where
  decisionId : String
  token : String
  attemptCount : Nat
  status : DStatus
deriving DecidableEq

/-- Modelled from the spec: the client-owned set of decisions the
Submission Pipeline mutates (section 3; missing from the repository
code). -/
structure PipelineState where
  decisions : List Decision
deriving DecidableEq

/-- Number of decisions of the given token currently in Submitting. -/
def submittingCount (st : PipelineState) (tok : String) : Nat :=
  st.decisions.countP (fun d => d.token == tok && d.status == DStatus.submitting)

/-- The per-token serialization invariant of section 3: at most one
decision per token is Submitting. -/
def SerializedPerToken (st : PipelineState) : Prop :=
  ∀ tok, submittingCount st tok ≤ 1

/-- Modelled from the spec: the rejection of step 1 of submit (section
4.3; missing from the repository code). -/
inductive SubmitReject
  | concurrentSubmissionInProgress
deriving DecidableEq

/-- Modelled from the spec: step 1 of submit (section 4.3) — transition
the decision to Submitting, rejecting with ConcurrentSubmissionInProgress
when another decision with the same token is already Submitting (missing
from the repository code). -/
def beginSubmit (st : PipelineState) (d : Decision) :
    Except SubmitReject PipelineState :=
  if 1 ≤ submittingCount st d.token then
    .error .concurrentSubmissionInProgress
  else .ok ⟨{ d with status := DStatus.submitting } :: st.decisions⟩

/-- Modelled from the spec: completion of an in-flight submission — the
identified decision leaves Submitting for Confirmed or Failed per the
transport classification of section 4.3 (missing from the repository
code). -/
def finishSubmit (st : PipelineState) (did : String) (ok : Bool) :
    PipelineState :=
  ⟨st.decisions.map (fun d =>
    if d.decisionId == did && d.status == DStatus.submitting then
      { d with status := if ok then DStatus.confirmed else DStatus.failed }
    else d)⟩

/-- Modelled from the spec: the operations through which pipeline states
are reached — a submit entering flight and a submission completing. -/
inductive PipelineOp
  | enter (d : Decision)
  | finish (did : String) (ok : Bool)

/-- Apply one pipeline operation; a rejected submit leaves the state as
it was. -/
def applyOp (st : PipelineState) : PipelineOp → PipelineState
  | .enter d =>
    match beginSubmit st d with
    | .ok st2 => st2
    | .error _ => st
  | .finish did ok => finishSubmit st did ok

/-- Run a sequence of pipeline operations. -/
def runOps (st : PipelineState) : List PipelineOp → PipelineState
  | [] => st
  | op :: rest => runOps (applyOp st op) rest

/-- Modelled from the spec: the retry parameters of section 4.3 step 4 and
section 4.4 — backoffBase, backoffCap and maxRetries, default 5 (missing
from the repository code). -/
structure RetryParams where
  backoffBase : Nat
  backoffCap : Nat
  maxRetries : Nat
deriving DecidableEq

/-- Modelled from the spec: a QueueEntry of section 3 — a decision with
its scheduling time (missing from the repository code). -/
structure QueueEntry where
  decision : Decision
  nextRetryAt : Nat
deriving DecidableEq

/-- Modelled from the spec: the Offline Queue with its dead-letter list
(section 4.4; missing from the repository code). -/
structure QueueState where
  queue : List QueueEntry
  deadLetters : List Decision
deriving DecidableEq

/-- Modelled from the spec: the backoff of section 4.3 step 4 —
nextRetryAt is now plus backoffBase times 2 to the min of attemptCount
and backoffCap, plus a nonnegative jitter (missing from the repository
code). -/
def nextRetryTime (p : RetryParams) (now jitter attempts : Nat) : Nat :=
  now + p.backoffBase * 2 ^ (min attempts p.backoffCap) + jitter

/-- Modelled from the spec: one 5xx-failed attempt (sections 4.3, 4.4 and
the section 8 property with maxRetries 5): increment attemptCount, mark
the decision Failed, and requeue it with backoff unless attemptCount has
reached maxRetries, in which case it moves to the dead letters (missing
from the repository code). -/
def failAttempt (p : RetryParams) (now jitter : Nat) (d : Decision)
    (q : QueueState) : QueueState :=
  let d2 := { d with attemptCount := d.attemptCount + 1, status := DStatus.failed }
  if p.maxRetries ≤ d2.attemptCount then
    ⟨q.queue, q.deadLetters ++ [d2]⟩
  else
    ⟨q.queue ++ [⟨d2, nextRetryTime p now jitter d2.attemptCount⟩], q.deadLetters⟩

/-- Modelled from the spec: the queue after n consecutive 500 responses
for a single decision d — the first failure comes from the submit itself,
each later one from a scheduler drain that pulls the decision from the
queue and resubmits it (sections 4.4 and 8; missing from the repository
code). -/
def after500s (p : RetryParams) (now jitter : Nat) (d : Decision) :
    Nat → QueueState
  | 0 => ⟨[], []⟩
  | 1 => failAttempt p now jitter d ⟨[], []⟩
  | n + 2 =>
    match after500s p now jitter d (n + 1) with
    | q =>
      match q.queue with
      | [] => q
      | e :: rest => failAttempt p now jitter e.decision ⟨rest, q.deadLetters⟩

/-! Theorems. -/

/-- Claim C9: in both demo variants the wire payload of every consent
submission carries the constant accept true at top level, whatever the
per-vendor choices; in particular also when every vendor preference in
the submitted map is false. -/
theorem wire_accept_always_true :
    (∀ (a : Bool) (av : List (String × Vendor)) (v : List (String × Bool))
       (c t : String), (buildConsent a av v c t).accept = true)
    ∧ (∀ (a : Bool) (v : V1Vendors) (n : Nat), (buildConsentV1 a v n).accept = true)
    ∧ (buildConsent false VENDORS hardcodedPreferences "cfg1" "tok").accept = true
    ∧ (buildConsentV1 false ⟨false, false, false⟩ 0).accept = true :=
  ⟨fun _ _ _ _ _ => rfl, fun _ _ _ => rfl, rfl, rfl⟩

/-- Claim C1: a run of submitConsent reports a result value for every
transport outcome — 2xx, non-2xx status, or a thrown network error, and
likewise for the configuration and token stages — and never lets an
exception escape the handler. -/
theorem submitConsent_never_throws (st : AppState) (a : Bool)
    (co : ConfigOutcome) (tko : TokenOutcome) (po : PostOutcome) :
    ∃ r, (submitConsent st a co tko po).outcome = Except.ok r := by
  unfold submitConsent
  dsimp only
  repeat' split
  all_goals exact ⟨_, rfl⟩

/-- Claim C7: submitConsent triggers configuration resolution exactly when
no configId is cached, triggers token resolution exactly when the
configuration stage succeeded and no token is cached, and transmits
exactly when both the configuration id and the token are obtainable — so
when either cannot be obtained, nothing is transmitted. -/
theorem submit_preconditions_resolution (st : AppState) (a : Bool)
    (co : ConfigOutcome) (tko : TokenOutcome) (po : PostOutcome) :
    (submitConsent st a co tko po).configFetched = !st.configId.isSome
    ∧ (submitConsent st a co tko po).tokenFetched
        = (configAvailable st co && !st.currentUserToken.isSome)
    ∧ (submitConsent st a co tko po).transmitted
        = (configAvailable st co && tokenAvailable st tko) := by
  rcases hcfg : st.configId with _ | c <;>
  rcases htok : st.currentUserToken with _ | t <;>
  rcases co with ⟨cs, _ | dci⟩ | cm <;>
  rcases tko with ⟨ts, _ | tokv, tb⟩ | tm <;>
  rcases po with ⟨ps, pb⟩ | pm <;>
    simp [submitConsent, ensureConfigId, fetchConfiguration, fetchConfigResult,
          ensureUserToken, fetchToken, doPost, configAvailable, tokenAvailable,
          Except.toOption, hcfg, htok] <;>
    (repeat' split) <;>
    simp_all [ite_eq_iff] <;>
    (casesm* _ ∧ _) <;> subst_vars <;> simp_all [ite_eq_iff]

/-- Claim C3: the ensure-configId resolution returns null — the failure
submitConsent reports as its could-not-fetch-configuration error, the
ConfigUnavailable of the spec — whenever no id is cached and the remote
call throws, responds non-2xx, or responds without a defaultConfigId; a
cached id short-circuits the remote call entirely; and after a successful
resolution the id is cached, so every subsequent call returns the same id
without a remote call. -/
theorem resolve_config_unavailable_and_cache (st : AppState) (o : ConfigOutcome) :
    (st.configId = none →
      ((∃ m, o = ConfigOutcome.netError m)
        ∨ (∃ s, o = ConfigOutcome.resp s none)
        ∨ (∃ s d, o = ConfigOutcome.resp s d ∧ isOkStatus s = false)) →
      (ensureConfigId st o).1 = none)
    ∧ (∀ c, st.configId = some c → ensureConfigId st o = (some c, st, false))
    ∧ (∀ c, (ensureConfigId st o).1 = some c →
        ∀ o2, ensureConfigId (ensureConfigId st o).2.1 o2
           = (some c, (ensureConfigId st o).2.1, false)) := by
  refine ⟨?_, ?_, ?_⟩
  · intro h hfail
    rcases hfail with ⟨m, rfl⟩ | ⟨s, rfl⟩ | ⟨s, d, rfl, hs⟩ <;>
      simp [ensureConfigId, fetchConfiguration, fetchConfigResult, truthy, h, *]
  · intro c hc
    simp [ensureConfigId, hc]
  · intro c hc o2
    rcases hcfg : st.configId with _ | c0
    · rcases hfc : fetchConfiguration st o with ⟨r, st2⟩
      have he : ensureConfigId st o = (r, st2, true) := by
        rw [ensureConfigId, hcfg, hfc]
      rw [he] at hc ⊢
      simp only at hc
      subst hc
      have h2 : st2.configId = some c := by
        rw [fetchConfiguration] at hfc
        rcases hfr : fetchConfigResult o with _ | c1 <;> rw [hfr] at hfc <;>
          simp only [Prod.mk.injEq] at hfc
        · exact absurd hfc.1 (by simp)
        · rcases hfc with ⟨h1, h2⟩
          rw [← h2]
          simp only [Option.some.injEq] at h1
          simp [h1]
      simp only
      simp [ensureConfigId, h2]
    · have he : ensureConfigId st o = (some c0, st, false) := by
        simp [ensureConfigId, hcfg]
      rw [he] at hc ⊢
      simp only [Option.some.injEq] at hc
      subst hc
      simp only
      simp [ensureConfigId, hcfg]

/-- Claim C3 witness: concrete resolution against a 200 response carrying
defaultConfigId cfg1, then a second call while the remote is down — the
cached id is returned and no failure occurs. -/
theorem resolve_config_cache_witness :
    (ensureConfigId initialAppState (ConfigOutcome.resp 200 (some "cfg1"))).1
      = some "cfg1"
    ∧ ensureConfigId
        (ensureConfigId initialAppState (ConfigOutcome.resp 200 (some "cfg1"))).2.1
        (ConfigOutcome.netError "down")
      = (some "cfg1",
         (ensureConfigId initialAppState (ConfigOutcome.resp 200 (some "cfg1"))).2.1,
         false) :=
  ⟨by decide,
   (resolve_config_unavailable_and_cache initialAppState
      (ConfigOutcome.resp 200 (some "cfg1"))).2.2 "cfg1" (by decide)
      (ConfigOutcome.netError "down")⟩

theorem firstTruthy_of_no_truthy (dflt : String) :
    ∀ l : List (Option String), l.any truthy = false → firstTruthy dflt l = dflt := by
  intro l
  induction l with
  | nil => intro _; rfl
  | cons o rest ih =>
    intro h
    simp only [List.any_cons, Bool.or_eq_false_iff] at h
    obtain ⟨h1, h2⟩ := h
    cases o with
    | none => simpa [firstTruthy] using ih h2
    | some s =>
      have hs : (s == "") = true := by
        simpa [truthy] using h1
      simpa [firstTruthy, hs] using ih h2

theorem firstTruthy_mem (dflt : String) :
    ∀ l : List (Option String),
      firstTruthy dflt l = dflt ∨ some (firstTruthy dflt l) ∈ l := by
  intro l
  induction l with
  | nil => exact Or.inl rfl
  | cons o rest ih =>
    cases o with
    | none =>
      have hstep : firstTruthy dflt (none :: rest) = firstTruthy dflt rest := rfl
      rcases ih with h | h
      · exact Or.inl (hstep.trans h)
      · refine Or.inr ?_
        rw [hstep]
        exact List.mem_cons_of_mem _ h
    | some s =>
      by_cases hs : (s == "") = true
      · have hstep : firstTruthy dflt (some s :: rest) = firstTruthy dflt rest := by
          simp [firstTruthy, hs]
        rcases ih with h | h
        · exact Or.inl (hstep.trans h)
        · refine Or.inr ?_
          rw [hstep]
          exact List.mem_cons_of_mem _ h
      · refine Or.inr ?_
        simp [firstTruthy, hs]

/-- Claim C4 counterexample: a 2xx response whose body carries the
server-assigned record id saved produces exactly the same result as a 2xx
response carrying no id at all, so on this input the server-assigned case
and the synthesized-marker case are not distinguishable to the caller
(App.js line 261 even renders this id as N/A). -/
theorem post_saved_id_collision :
    classifyPost 201 ⟨some "saved", none, none, none, none⟩
      = classifyPost 201 PostBody.empty
    ∧ bodyCarries ⟨some "saved", none, none, none, none⟩ "saved"
    ∧ hasAnyId PostBody.empty = false
    ∧ extractConsentId PostBody.empty = "saved" := by
  refine ⟨rfl, ?_, rfl, rfl⟩
  simp [bodyCarries]

/-- Claim C4 (amended): every 2xx response yields the success result
carrying the extracted record id — the first truthy id field of the body
when one is present, else the synthesized marker saved; a body with no id
field always yields saved; a result other than saved always carries an id
taken from the body, so the two cases are distinguishable exactly when the
server-assigned id is not the literal saved; HTTP 201 with body id abc
yields success with record id abc; and a submitConsent run with cached
configuration and token reports exactly this classification. -/
theorem post_2xx_confirmed_recordId (status : Nat) (body : PostBody)
    (h : isOkStatus status = true) :
    classifyPost status body
      = SubmitResult.success status (extractConsentId body)
    ∧ (hasAnyId body = false → extractConsentId body = "saved")
    ∧ (extractConsentId body ≠ "saved" →
        hasAnyId body = true ∧ bodyCarries body (extractConsentId body))
    ∧ classifyPost 201 ⟨some "abc", none, none, none, none⟩
        = SubmitResult.success 201 "abc"
    ∧ (∀ (st : AppState) (a : Bool) (co : ConfigOutcome) (tko : TokenOutcome)
         (c t : String), st.configId = some c → st.currentUserToken = some t →
        (submitConsent st a co tko (PostOutcome.resp status body)).outcome
          = Except.ok (classifyPost status body)) := by
  refine ⟨by simp [classifyPost, h], ?_, ?_, by decide, ?_⟩
  · intro hno
    exact firstTruthy_of_no_truthy "saved" _ hno
  · intro hne
    have hid : hasAnyId body = true := by
      cases hh : hasAnyId body
      · exact absurd (firstTruthy_of_no_truthy "saved" _ hh) hne
      · rfl
    refine ⟨hid, ?_⟩
    rcases firstTruthy_mem "saved"
        [body.id, body.underscoreId, body.consentId, body.uuid, body.insertedId]
      with hm | hm
    · exact absurd hm hne
    · exact hm
  · intro st a co tko c t hc ht
    simp [submitConsent, ensureConfigId, hc, ensureUserToken, ht, doPost,
          classifyPost, h]

/-- Claim C4 witness: hypothesis and the 201-with-id-abc instance at a
concrete input. -/
theorem post_2xx_confirmed_recordId_witness :
    isOkStatus 200 = true
    ∧ classifyPost 201 ⟨some "abc", none, none, none, none⟩
        = SubmitResult.success 201 "abc" :=
  ⟨by decide, (post_2xx_confirmed_recordId 200 PostBody.empty (by decide)).2.2.2.1⟩

/-- Claim C5 counterexample: nothing token-related is persisted, so the
get-or-create token step of two sessions — each starting from the initial
state after loadSettings, with the persisted store untouched in between —
issues the remote request both times and returns whatever the service
sends, here two different tokens; fetchToken itself returns a fresh remote
token on every call. -/
theorem token_not_persisted_collision :
    ((ensureUserToken (loadSettings ⟨some "p1", some "staging"⟩ initialAppState)
        (TokenOutcome.resp 200 (some "tok_a") "")).1.toOption.map Prod.fst
      = some "tok_a")
    ∧ ((ensureUserToken (loadSettings ⟨some "p1", some "staging"⟩ initialAppState)
        (TokenOutcome.resp 200 (some "tok_b") "")).1.toOption.map Prod.fst
      = some "tok_b")
    ∧ ("tok_a" : String) ≠ "tok_b"
    ∧ fetchToken (TokenOutcome.resp 200 (some "tok_a") "") = Except.ok "tok_a"
    ∧ fetchToken (TokenOutcome.resp 200 (some "tok_b") "") = Except.ok "tok_b" := by
  refine ⟨rfl, rfl, by decide, rfl, rfl⟩

/-- Claim C5 (amended): token resolution is idempotent only with respect
to the in-memory session state, not persisted storage.  The ensure-token
step of submitConsent reuses the in-memory currentUserToken without any
remote request when one is present; once a token has been fetched and
stored in memory, a second ensure-token call in the same session returns
the identical token without a further request; and the persisted store
holds no token — loadSettings restores only the project id and the
environment and never the token. -/
theorem token_session_cache (st : AppState) (tko tko2 : TokenOutcome) :
    (∀ t, st.currentUserToken = some t →
       ensureUserToken st tko = (Except.ok (t, st), false))
    ∧ (∀ t st1, st.currentUserToken = none →
        ensureUserToken st tko = (Except.ok (t, st1), true) →
        ensureUserToken st1 tko2 = (Except.ok (t, st1), false))
    ∧ (∀ store, (loadSettings store st).currentUserToken = st.currentUserToken) := by
  refine ⟨?_, ?_, ?_⟩
  · intro t h
    simp [ensureUserToken, h]
  · intro t st1 h0 h1
    rw [ensureUserToken, h0] at h1
    rcases hf : fetchToken tko with e | t1 <;> rw [hf] at h1
    · exact absurd h1 (by simp)
    · have h2 := Except.ok.inj (congrArg Prod.fst h1)
      have ht1 : t1 = t := congrArg Prod.fst h2
      have hst1 : ({ st with currentUserToken := some t1 } : AppState) = st1 :=
        congrArg Prod.snd h2
      subst ht1
      rw [← hst1]
      simp [ensureUserToken]
  · intro store
    rcases store with ⟨_ | p, _ | e⟩ <;>
      simp only [loadSettings] <;>
      (repeat' split) <;> rfl

/-- Claim C5 witness: with a token already in the session state, the
ensure-token step returns it unchanged even while the remote is down. -/
theorem token_session_cache_witness :
    ({ initialAppState with currentUserToken := some "tok_a" } : AppState).currentUserToken
      = some "tok_a"
    ∧ ensureUserToken { initialAppState with currentUserToken := some "tok_a" }
        (TokenOutcome.netError "down")
      = (Except.ok ("tok_a", { initialAppState with currentUserToken := some "tok_a" }),
         false) :=
  ⟨rfl,
   (token_session_cache { initialAppState with currentUserToken := some "tok_a" }
      (TokenOutcome.netError "down") (TokenOutcome.netError "down")).1 "tok_a" rfl⟩

/-- Claim C6 counterexample: a failed vendors fetch (HTTP 500) leaves the
vendor list as the three hardcoded fallback vendors — not empty — resets
the preferences to the hardcoded keys and returns null; no
vendorsIncomplete marker exists anywhere in the result. -/
theorem fetchVendors_failure_not_empty :
    (fetchVendors initialAppState (VendorsOutcome.resp 500 none)).1 = none
    ∧ (fetchVendors initialAppState (VendorsOutcome.resp 500 none)).2.apiVendors
        = VENDORS
    ∧ VENDORS.length = 3
    ∧ (fetchVendors initialAppState (VendorsOutcome.resp 500 none)).2.vendors
        = [("google_analytics", false), ("facebook_pixel", false),
           ("mixpanel", false)] := by decide

/-- Claim C6 (amended): on a failed vendors fetch — non-2xx response or
thrown network error — the operation still completes without failing: it
returns null, keeps the current vendor list unchanged (initially the
hardcoded three-vendor fallback, never empty) and resets the preference
map to the hardcoded keys, all false; no vendorsIncomplete flag is
produced. -/
theorem fetchVendors_degraded (st : AppState) (status : Nat)
    (payload : Option (List VendorJson)) (m : String) :
    (isOkStatus status = false →
       fetchVendors st (VendorsOutcome.resp status payload)
         = (none, { st with vendors := hardcodedPreferences, vendorsLoading := false }))
    ∧ fetchVendors st (VendorsOutcome.netError m)
        = (none, { st with vendors := hardcodedPreferences, vendorsLoading := false })
    ∧ (∀ kv ∈ hardcodedPreferences, kv.2 = false)
    ∧ initialAppState.apiVendors = VENDORS
    ∧ VENDORS ≠ [] := by
  refine ⟨?_, rfl, by decide, rfl, by decide⟩
  intro h
  simp [fetchVendors, h]

/-- Claim C6 witness: the degraded path at a concrete 500 response. -/
theorem fetchVendors_degraded_witness :
    isOkStatus 500 = false
    ∧ fetchVendors initialAppState (VendorsOutcome.resp 500 none)
        = (none, { initialAppState with
                    vendors := hardcodedPreferences, vendorsLoading := false }) :=
  ⟨by decide, (fetchVendors_degraded initialAppState 500 none "x").1 (by decide)⟩

/-- Claim C10: whenever the vendor list is loaded from the remote API,
the freshly stored preference map assigns false to every vendor key, and
likewise the hardcoded fallback installed on a failed load is all false —
no vendor is ever defaulted to accepted by a vendor-list load. -/
theorem vendor_load_defaults_false (st : AppState) (status : Nat)
    (vs : List VendorJson) (m : String) (h : isOkStatus status = true) :
    (∀ kv ∈ (fetchVendors st (VendorsOutcome.resp status (some vs))).2.vendors,
       kv.2 = false)
    ∧ (∀ kv ∈ (fetchVendors st (VendorsOutcome.netError m)).2.vendors, kv.2 = false)
    ∧ (fetchVendors st (VendorsOutcome.resp status (some vs))).2.vendors
        = vs.map (fun v => (vendorKey v, false)) := by
  refine ⟨?_, ?_, by simp [fetchVendors, h]⟩
  · intro kv hkv
    simp only [fetchVendors, h, if_pos] at hkv
    rcases List.mem_map.1 hkv with ⟨v, _, hv⟩
    rw [← hv]
  · intro kv hkv
    simp only [fetchVendors] at hkv
    rcases List.mem_map.1 hkv with ⟨v, _, hv⟩
    rw [← hv]

/-- Claim C10 witness: a concrete one-vendor load yields the single key
mapped to false. -/
theorem vendor_load_defaults_false_witness :
    isOkStatus 200 = true
    ∧ (fetchVendors initialAppState
        (VendorsOutcome.resp 200 (some [⟨"v1", some "Vendor One", none, none, none⟩]))).2.vendors
      = [⟨"v1", some "Vendor One", none, none, none⟩].map
          (fun v => (vendorKey v, false)) :=
  ⟨by decide,
   (vendor_load_defaults_false initialAppState 200
      [⟨"v1", some "Vendor One", none, none, none⟩] "x" (by decide)).2.2⟩

theorem beginSubmit_ok_iff (st : PipelineState) (d : Decision)
    (st1 : PipelineState) :
    beginSubmit st d = Except.ok st1
      ↔ submittingCount st d.token = 0
        ∧ st1 = ⟨{ d with status := DStatus.submitting } :: st.decisions⟩ := by
  rw [beginSubmit]
  by_cases h : 1 ≤ submittingCount st d.token
  · simp only [h, if_pos]
    constructor
    · intro he
      exact absurd he (by simp)
    · intro ⟨h0, _⟩
      omega
  · simp only [h, if_neg, if_false]
    constructor
    · intro he
      refine ⟨by omega, ?_⟩
      exact (Except.ok.inj he).symm
    · intro ⟨_, h1⟩
      rw [h1]

theorem submittingCount_cons (st : PipelineState) (d : Decision) (tok : String) :
    submittingCount ⟨{ d with status := DStatus.submitting } :: st.decisions⟩ tok
      = submittingCount st tok + (if d.token == tok then 1 else 0) := by
  simp [submittingCount, List.countP_cons]

theorem beginSubmit_preserves (st : PipelineState) (d : Decision)
    (st1 : PipelineState) (hinv : SerializedPerToken st)
    (h : beginSubmit st d = Except.ok st1) : SerializedPerToken st1 := by
  rcases (beginSubmit_ok_iff st d st1).1 h with ⟨h0, h1⟩
  subst h1
  intro tok
  rw [submittingCount_cons]
  by_cases ht : (d.token == tok) = true
  · have heq : d.token = tok := eq_of_beq ht
    subst heq
    rw [if_pos ht]
    omega
  · have := hinv tok
    rw [if_neg ht]
    omega

theorem finishSubmit_preserves (st : PipelineState) (did : String) (ok : Bool)
    (hinv : SerializedPerToken st) : SerializedPerToken (finishSubmit st did ok) := by
  intro tok
  have hm :
      submittingCount (finishSubmit st did ok) tok ≤ submittingCount st tok := by
    unfold submittingCount finishSubmit
    rw [List.countP_map]
    refine List.countP_mono_left ?_
    intro d _ hp
    simp only [Function.comp] at hp
    by_cases hc : (d.decisionId == did && d.status == DStatus.submitting) = true
    · rw [if_pos hc] at hp
      cases ok <;> simp at hp
    · rw [if_neg hc] at hp
      exact hp
  exact le_trans hm (hinv tok)

/-- Claim C2 (spec-modelled): the repository ships no Submission Pipeline,
so the per-token serialization is settled against the model built from the
spec.  Every state reachable from a serialized state through pipeline
operations keeps at most one Submitting decision per token; and when two
submits for the same token overlap — the second begins while the first is
still in flight — the first proceeds (its token then has exactly one
Submitting decision) and the second is rejected with
ConcurrentSubmissionInProgress. -/
theorem pipeline_serializes_per_token :
    (∀ (st : PipelineState) (ops : List PipelineOp),
       SerializedPerToken st → SerializedPerToken (runOps st ops))
    ∧ (∀ (st : PipelineState) (d1 d2 : Decision) (st1 : PipelineState),
        SerializedPerToken st → beginSubmit st d1 = Except.ok st1 →
        d2.token = d1.token →
        submittingCount st1 d1.token = 1
        ∧ beginSubmit st1 d2
            = Except.error SubmitReject.concurrentSubmissionInProgress) := by
  constructor
  · intro st ops
    induction ops generalizing st with
    | nil => exact fun h => h
    | cons op rest ih =>
      intro h
      rw [runOps]
      refine ih (applyOp st op) ?_
      cases op with
      | enter d =>
        rw [applyOp]
        rcases hb : beginSubmit st d with e | st2
        · exact h
        · exact beginSubmit_preserves st d st2 h hb
      | finish did okb => exact finishSubmit_preserves st did okb h
  · intro st d1 d2 st1 hinv hb htok
    rcases (beginSubmit_ok_iff st d1 st1).1 hb with ⟨h0, h1⟩
    subst h1
    have hc1 : submittingCount
        ⟨{ d1 with status := DStatus.submitting } :: st.decisions⟩ d1.token = 1 := by
      rw [submittingCount_cons]
      simp [h0]
    refine ⟨hc1, ?_⟩
    rw [beginSubmit, htok, hc1]
    simp

/-- Claim C2 witness: a concrete overlap — the first submit for token t1
enters flight from the empty pipeline, the second submit for t1 is
rejected while the first is still Submitting, and the empty pipeline is
serialized. -/
theorem pipeline_serializes_per_token_witness :
    submittingCount
        ⟨[{ decisionId := "d1", token := "t1", attemptCount := 0,
            status := DStatus.submitting }]⟩ "t1" = 1
    ∧ beginSubmit
        ⟨[{ decisionId := "d1", token := "t1", attemptCount := 0,
            status := DStatus.submitting }]⟩
        { decisionId := "d2", token := "t1", attemptCount := 0,
          status := DStatus.pending }
      = Except.error SubmitReject.concurrentSubmissionInProgress :=
  pipeline_serializes_per_token.2 ⟨[]⟩
    { decisionId := "d1", token := "t1", attemptCount := 0,
      status := DStatus.pending }
    { decisionId := "d2", token := "t1", attemptCount := 0,
      status := DStatus.pending }
    ⟨[{ decisionId := "d1", token := "t1", attemptCount := 0,
        status := DStatus.submitting }]⟩
    (fun _ => by simp [submittingCount]) rfl rfl

/-- Claim C8 (spec-modelled): the repository ships no Offline Queue or
Retry Scheduler, so the 500-handling is settled against the model built
from the spec, with maxRetries 5 and a positive backoff base.  After the
first 500 the decision sits in the queue as the only entry, Failed, with
attemptCount 1 and nextRetryAt strictly after now; after five consecutive
500 responses the queue is empty and the decision sits in the dead-letter
list with attemptCount 5. -/
theorem retry_500_dead_letter (p : RetryParams) (now j : Nat) (d : Decision)
    (h5 : p.maxRetries = 5) (hb : 1 ≤ p.backoffBase) (h0 : d.attemptCount = 0) :
    (∃ e, (after500s p now j d 1).queue = [e]
       ∧ e.decision.decisionId = d.decisionId
       ∧ e.decision.status = DStatus.failed
       ∧ e.decision.attemptCount = 1
       ∧ now < e.nextRetryAt
       ∧ (after500s p now j d 1).deadLetters = [])
    ∧ (after500s p now j d 5).queue = []
    ∧ (∃ d5, (after500s p now j d 5).deadLetters = [d5]
        ∧ d5.decisionId = d.decisionId
        ∧ d5.status = DStatus.failed
        ∧ d5.attemptCount = 5) := by
  rcases d with ⟨did, tok, cnt, s⟩
  simp only at h0
  subst h0
  have hpow : ∀ k : Nat, 0 < p.backoffBase * 2 ^ k + j := by
    intro k
    have h2 : 0 < 2 ^ k := Nat.pos_pow_of_pos k (by omega)
    have : 0 < p.backoffBase * 2 ^ k := Nat.mul_pos (by omega) h2
    omega
  refine ⟨⟨⟨⟨did, tok, 1, DStatus.failed⟩,
           nextRetryTime p now j 1⟩, ?_, rfl, rfl, rfl, ?_, ?_⟩, ?_, ?_⟩
  · simp [after500s, failAttempt, h5]
  · show now < nextRetryTime p now j 1
    rw [nextRetryTime]
    have := hpow (min 1 p.backoffCap)
    omega
  · simp [after500s, failAttempt, h5]
  · simp [after500s, failAttempt, h5]
  · refine ⟨⟨did, tok, 5, DStatus.failed⟩, ?_, rfl, rfl, rfl⟩
    simp [after500s, failAttempt, h5]

/-- Claim C8 witness: the two queue shapes at concrete retry parameters,
time and decision. -/
theorem retry_500_dead_letter_witness :
    (∃ e, (after500s ⟨1, 6, 5⟩ 100 0 ⟨"d1", "t1", 0, DStatus.pending⟩ 1).queue = [e]
       ∧ e.decision.decisionId = "d1"
       ∧ e.decision.status = DStatus.failed
       ∧ e.decision.attemptCount = 1
       ∧ 100 < e.nextRetryAt
       ∧ (after500s ⟨1, 6, 5⟩ 100 0 ⟨"d1", "t1", 0, DStatus.pending⟩ 1).deadLetters = [])
    ∧ (after500s ⟨1, 6, 5⟩ 100 0 ⟨"d1", "t1", 0, DStatus.pending⟩ 5).queue = []
    ∧ (∃ d5, (after500s ⟨1, 6, 5⟩ 100 0 ⟨"d1", "t1", 0, DStatus.pending⟩ 5).deadLetters
          = [d5]
        ∧ d5.decisionId = "d1"
        ∧ d5.status = DStatus.failed
        ∧ d5.attemptCount = 5) :=
  retry_500_dead_letter ⟨1, 6, 5⟩ 100 0 ⟨"d1", "t1", 0, DStatus.pending⟩
    rfl (by decide) rfl

end HeadlessCmp
